import Mathlib

/-!
Shallow embedding of the teaching-session and QR-code attendance core of the
be_android backend (FastAPI over Supabase).

Conventions of the embedding:
  - Time instants are natural numbers; each call to Python
    datetime.utcnow() becomes an explicit `now` parameter.
  - The Supabase tables teaching_sessions, attendances and the scheduled
    closure jobs become lists of rows inside a `DB` record; an
    update .eq("id", x) becomes a map over the row list, response.data[0]
    becomes `List.find?`, and a non-empty response.data becomes `List.any`.
  - The single float in the modelled code, the constant confidence 1.0 of
    app/services/classes.py, is modelled as `some 1`.
  - Each service function returns its Python return value paired with the
    resulting database state.
-/

/-- Row of the teaching_sessions table
(app/models/classes.py, app/schemas/teaching_sessions.py).
session_date, start_time and end_time keep their database units (a date and
two times of day, never combined with instants by the modelled code);
qr_expired_at and updated_at are instants. -/
structure TeachingSession where
  id : Nat
  class_id : Nat
  session_date : Nat
  start_time : Nat
  end_time : Nat
  session_type : String
  qr_code : Option String
  qr_expired_at : Option Nat
  status : String
  updated_at : Option Nat
deriving DecidableEq

/-- Row of the attendances table (app/services/classes.py attendance_data). -/
structure Attendance where
  id : Nat
  session_id : Nat
  student_id : Nat
  status : String
  attendance_time : Nat
  confidence_score : Option Nat
  ip_address : Option String
  user_agent : Option String
deriving DecidableEq

/-- A closure job registered with the background workflow engine
(worker/main.py close_session_workflow.schedule). -/
structure ScheduledClosureJob where
  session_id : Nat
  run_at : Nat
deriving DecidableEq

/-- The persistent state the modelled operations read and write. -/
structure DB where
  sessions : List TeachingSession
  attendances : List Attendance
  scheduledJobs : List ScheduledClosureJob
  nextSessionId : Nat
  nextAttendanceId : Nat
deriving DecidableEq

/-- BaseRepository.get_by_id for teaching_sessions
(app/repositories/base.py, select * where id = session_id, first row). -/
def getSessionById (db : DB) (session_id : Nat) : Option TeachingSession :=
  db.sessions.find? (fun s => s.id == session_id)

/-- AttendanceRepository.get_by_session_and_student
(app/repositories/classes.py lines 497-511). -/
def get_by_session_and_student (db : DB) (session_id student_id : Nat) :
    Option Attendance :=
  db.attendances.find? (fun a => a.session_id == session_id && a.student_id == student_id)

/-- TeachingSessionService.validate_qr_code
(app/services/classes.py lines 83-101): false when the session is missing,
when the stored qr_code differs from the submitted one, or when an expiry is
stored and now is strictly past it.  The session status is never read. -/
def validate_qr_code (db : DB) (now : Nat) (session_id : Nat) (qr : String) : Bool :=
  match getSessionById db session_id with
  | none => false
  | some s =>
    if s.qr_code = some qr then
      match s.qr_expired_at with
      | some e => if now > e then false else true
      | none => true
    else false

/-- The qr_code string built by TeachingSessionService.generate_qr_code
(app/services/classes.py line 70); token stands for the random
secrets.token_urlsafe(32) part. -/
def qr_string (session_id : Nat) (token : String) : String :=
  "attendance://" ++ toString session_id ++ "/" ++ token

/-- TeachingSessionRepository.update_qr_code
(app/repositories/classes.py lines 204-220): unconditional update of qr_code
and qr_expired_at on every row with the given id; returns the first updated
row, or none when no row matched. -/
def update_qr_code (db : DB) (session_id : Nat) (qr : String) (expired_at : Nat) :
    DB × Option TeachingSession :=
  let updated := db.sessions.map fun s =>
    if s.id = session_id then { s with qr_code := some qr, qr_expired_at := some expired_at }
    else s
  ({ db with sessions := updated }, updated.find? (fun s => s.id == session_id))

/-- TeachingSessionService.generate_qr_code
(app/services/classes.py lines 65-81): builds the qr string, sets the expiry
to now plus expiry_minutes, stores both via update_qr_code, and returns the
qr string when a row was updated, none otherwise.  No status check. -/
def generate_qr_code (db : DB) (now : Nat) (session_id : Nat) (token : String)
    (expiry_minutes : Nat) : Option String × DB :=
  let qr := qr_string session_id token
  let r := update_qr_code db session_id qr (now + expiry_minutes * 60)
  ((if r.2.isSome then some qr else none), r.1)

/-- AttendanceService.mark_attendance_by_qr
(app/services/classes.py lines 120-148).  Every failure branch of the Python
code raises a ValueError that the function itself catches and converts to
None, leaving the database untouched; success inserts a row with status
"present" and confidence 1.0 regardless of how late the check-in is. -/
def mark_attendance_by_qr (db : DB) (now : Nat) (session_id student_id : Nat)
    (qr : String) (ip_address user_agent : Option String) : Option Attendance × DB :=
  if validate_qr_code db now session_id qr then
    match get_by_session_and_student db session_id student_id with
    | some _ => (none, db)
    | none =>
      let a : Attendance :=
        { id := db.nextAttendanceId, session_id := session_id, student_id := student_id,
          status := "present", attendance_time := now, confidence_score := some 1,
          ip_address := ip_address, user_agent := user_agent }
      (some a, { db with attendances := db.attendances ++ [a],
                         nextAttendanceId := db.nextAttendanceId + 1 })
  else (none, db)

/-- BaseRepository.update on the attendances table restricted to the status
field, as invoked by mark_attendance_manual (app/repositories/base.py). -/
def updateAttendanceStatus (db : DB) (attendance_id : Nat) (st : String) :
    DB × Option Attendance :=
  let updated := db.attendances.map fun a =>
    if a.id = attendance_id then { a with status := st } else a
  ({ db with attendances := updated }, updated.find? (fun a => a.id == attendance_id))

/-- AttendanceService.mark_attendance_manual
(app/services/classes.py lines 150-170): when a row for the pair already
exists its status is overwritten in place, otherwise a fresh row is
inserted. -/
def mark_attendance_manual (db : DB) (now : Nat) (session_id student_id : Nat)
    (st : String) : Option Attendance × DB :=
  match get_by_session_and_student db session_id student_id with
  | some existing =>
    let r := updateAttendanceStatus db existing.id st
    (r.2, r.1)
  | none =>
    let a : Attendance :=
      { id := db.nextAttendanceId, session_id := session_id, student_id := student_id,
        status := st, attendance_time := now, confidence_score := none,
        ip_address := none, user_agent := none }
    (some a, { db with attendances := db.attendances ++ [a],
                       nextAttendanceId := db.nextAttendanceId + 1 })

/-- The POST sessions qr attendance endpoint
(app/api/v1/classes.py lines 310-335): a None from the service becomes one
generic HTTP 400; the except ValueError arm is unreachable because the
service already swallowed the error. -/
def mark_attendance_by_qr_endpoint (db : DB) (now : Nat) (session_id student_id : Nat)
    (qr : String) : Except (Nat × String) String × DB :=
  let r := mark_attendance_by_qr db now session_id student_id qr none none
  match r.1 with
  | none => (Except.error (400, "Failed to mark attendance with QR code"), r.2)
  | some _ => (Except.ok "Attendance marked successfully using QR code", r.2)

/-- The dict returned by the worker task (worker/main.py lines 42-75):
success plus either nothing or an error string.  There is no closed field. -/
structure CloseResult where
  success : Bool
  session_id : Nat
  error : Option String
deriving DecidableEq

/-- close_teaching_session (worker/main.py lines 42-75): an unconditional
update setting status to "Closed" (and updated_at) on every row with the
given id; reports success whenever at least one row matched, with no
check of the previous status and no clearing of the qr fields. -/
def close_teaching_session (db : DB) (now : Nat) (session_id : Nat) : DB × CloseResult :=
  let updated := db.sessions.map fun s =>
    if s.id = session_id then { s with status := "Closed", updated_at := some now } else s
  ({ db with sessions := updated },
   if db.sessions.any (fun s => s.id == session_id) then
     { success := true, session_id := session_id, error := none }
   else
     { success := false, session_id := session_id,
       error := some "Failed to update session status" })

/-- Payload of the session creation endpoints
(app/schemas/teaching_sessions.py TeachingSessionCreate); status defaults to
"Close". -/
structure TeachingSessionCreate where
  class_id : Nat
  session_date : Nat
  start_time : Nat
  end_time : Nat
  session_type : String
  qr_code : Option String := none
  qr_expired_at : Option Nat := none
  status : String := "Close"
deriving DecidableEq

/-- create_session (app/api/endpoints/teaching_sessions.py lines 53-63, and
equally the v1 create_teaching_session): a plain insert.  Neither creation
path calls the scheduler, so scheduledJobs is left untouched. -/
def create_session (db : DB) (payload : TeachingSessionCreate) : DB × TeachingSession :=
  let s : TeachingSession :=
    { id := db.nextSessionId, class_id := payload.class_id,
      session_date := payload.session_date, start_time := payload.start_time,
      end_time := payload.end_time, session_type := payload.session_type,
      qr_code := payload.qr_code, qr_expired_at := payload.qr_expired_at,
      status := payload.status, updated_at := none }
  ({ db with sessions := db.sessions ++ [s], nextSessionId := db.nextSessionId + 1 }, s)

/-- SessionScheduler.schedule_session_closure
(app/core/scheduler.py lines 15-37): registers a deferred closure job with
the workflow engine and returns a mock task id.  No production code invokes
it; only a manual test script schedules the closure workflow. -/
def schedule_session_closure (db : DB) (session_id : Nat) (run_at : Nat) : DB × String :=
  ({ db with scheduledJobs := db.scheduledJobs ++ [{ session_id := session_id, run_at := run_at }] },
   "mock-task-" ++ toString session_id ++ "-" ++ toString run_at)

/-- Payload of PUT sessions id
(app/schemas/teaching_sessions.py TeachingSessionUpdate): every field
optional, including status.  A field that is none is absent from the
exclude_unset dict and leaves the column unchanged. -/
structure TeachingSessionUpdate where
  session_date : Option Nat := none
  start_time : Option Nat := none
  end_time : Option Nat := none
  session_type : Option String := none
  qr_code : Option String := none
  qr_expired_at : Option Nat := none
  status : Option String := none
deriving DecidableEq

/-- True when the exclude_unset dict of the payload is empty. -/
def isEmptyUpdate (u : TeachingSessionUpdate) : Bool :=
  u.session_date.isNone && u.start_time.isNone && u.end_time.isNone &&
  u.session_type.isNone && u.qr_code.isNone && u.qr_expired_at.isNone && u.status.isNone

/-- Effect of applying the update dict to one row: each provided field
overwrites the column, with no check of the previous value. -/
def applyUpdate (u : TeachingSessionUpdate) (s : TeachingSession) : TeachingSession :=
  { s with
    session_date := u.session_date.getD s.session_date,
    start_time := u.start_time.getD s.start_time,
    end_time := u.end_time.getD s.end_time,
    session_type := u.session_type.getD s.session_type,
    qr_code := match u.qr_code with | some v => some v | none => s.qr_code,
    qr_expired_at := match u.qr_expired_at with | some v => some v | none => s.qr_expired_at,
    status := u.status.getD s.status }

/-- TeachingSessionRepository.update
(app/repositories/teaching_sessions.py lines 59-72): returns none on an
empty dict, otherwise updates every row with the id and returns the first. -/
def repoUpdateSession (db : DB) (session_id : Nat) (u : TeachingSessionUpdate) :
    DB × Option TeachingSession :=
  if isEmptyUpdate u then (db, none)
  else
    let updated := db.sessions.map fun s => if s.id = session_id then applyUpdate u s else s
    ({ db with sessions := updated }, updated.find? (fun s => s.id == session_id))

/-- update_session (app/api/endpoints/teaching_sessions.py lines 66-84):
404 when the session is missing, otherwise the repository update; an empty
payload returns the existing row. -/
def update_session (db : DB) (session_id : Nat) (u : TeachingSessionUpdate) :
    DB × Except (Nat × String) TeachingSession :=
  match getSessionById db session_id with
  | none => (db, Except.error (404, "Teaching session not found"))
  | some existing =>
    let r := repoUpdateSession db session_id u
    match r.2 with
    | none => (r.1, Except.ok existing)
    | some x => (r.1, Except.ok x)

/-- Two attendance rows for the same (session, student) pair. -/
def SamePair (a b : Attendance) : Prop :=
  a.session_id = b.session_id ∧ a.student_id = b.student_id

instance (a b : Attendance) : Decidable (SamePair a b) :=
  decidable_of_iff (a.session_id = b.session_id ∧ a.student_id = b.student_id) Iff.rfl

/-- Boolean check that no two rows of the list share a (session, student)
pair. -/
def noDupPair : List Attendance → Bool
  | [] => true
  | a :: t =>
    (t.all fun b => !(a.session_id == b.session_id && a.student_id == b.student_id))
      && noDupPair t

/-- The at-most-one-entry-per-pair invariant of the attendances table. -/
def AtMostOnePerPair (db : DB) : Prop :=
  noDupPair db.attendances = true

instance (db : DB) : Decidable (AtMostOnePerPair db) :=
  decidable_of_iff (noDupPair db.attendances = true) Iff.rfl

/-- Concrete open session used by the witnesses and counterexamples. -/
def sessionA : TeachingSession :=
  { id := 1, class_id := 2, session_date := 0, start_time := 540, end_time := 660,
    session_type := "theory", qr_code := some "attendance://1/tok",
    qr_expired_at := some 600, status := "Open", updated_at := none }

/-- Database holding only sessionA. -/
def dbA : DB :=
  { sessions := [sessionA], attendances := [], scheduledJobs := [],
    nextSessionId := 2, nextAttendanceId := 1 }

/-- An existing attendance row for student 7 in session 1. -/
def attA : Attendance :=
  { id := 1, session_id := 1, student_id := 7, status := "present",
    attendance_time := 545, confidence_score := some 1,
    ip_address := none, user_agent := none }

/-- dbA with the attendance of student 7 already recorded. -/
def dbB : DB := { dbA with attendances := [attA], nextAttendanceId := 2 }

/-- sessionA in the Close state with no stored token. -/
def sessionClosed : TeachingSession :=
  { sessionA with status := "Close", qr_code := none, qr_expired_at := none }

/-- Database holding only the closed session. -/
def dbClosed : DB := { dbA with sessions := [sessionClosed] }

/-- find? by id over an id-keyed conditional map is the map of the updater
over the original find?, provided the updater preserves ids. -/
theorem find?_map_upd (l : List TeachingSession) (session_id : Nat)
    (f : TeachingSession → TeachingSession) (hf : ∀ s, (f s).id = s.id) :
    (l.map fun s => if s.id = session_id then f s else s).find? (fun s => s.id == session_id)
      = (l.find? (fun s => s.id == session_id)).map f := by
  induction l with
  | nil => rfl
  | cons a t ih =>
    by_cases h : a.id = session_id
    · simp [List.find?, h, hf]
    · have hb : (a.id == session_id) = false := by simp [h]
      simp [List.find?, h, hb, ih]

/-- Existence of a row with a given id survives an id-preserving
conditional map. -/
theorem any_map_upd (l : List TeachingSession) (session_id : Nat)
    (f : TeachingSession → TeachingSession) (hf : ∀ s, (f s).id = s.id) :
    (l.map fun s => if s.id = session_id then f s else s).any (fun s => s.id == session_id)
      = l.any (fun s => s.id == session_id) := by
  induction l with
  | nil => rfl
  | cons a t ih =>
    by_cases h : a.id = session_id
    · simp [h, hf]
    · simp [h, ih]

/-- An id-keyed conditional map that does not touch the qr fields leaves
the projection to the qr fields unchanged. -/
theorem map_map_qr (l : List TeachingSession) (session_id : Nat)
    (f : TeachingSession → TeachingSession)
    (hf : ∀ s, (f s).qr_code = s.qr_code ∧ (f s).qr_expired_at = s.qr_expired_at) :
    (l.map fun s => if s.id = session_id then f s else s).map
        (fun s => (s.qr_code, s.qr_expired_at))
      = l.map fun s => (s.qr_code, s.qr_expired_at) := by
  induction l with
  | nil => rfl
  | cons a t ih =>
    by_cases h : a.id = session_id
    · simp [h, (hf a).1, (hf a).2, ih]
    · simp [h, ih]

/-- The boolean duplicate check agrees with pairwise distinctness of the
(session, student) pairs. -/
theorem noDupPair_iff_pairwise (l : List Attendance) :
    noDupPair l = true ↔ l.Pairwise fun a b => ¬ SamePair a b := by
  induction l with
  | nil => simp [noDupPair]
  | cons a t ih =>
    rw [List.pairwise_cons, ← ih]
    rw [noDupPair]
    rw [Bool.and_eq_true]
    constructor
    · rintro ⟨h1, h2⟩
      refine ⟨?_, h2⟩
      intro x hx hcon
      have hall := List.all_eq_true.1 h1 x hx
      rcases hcon with ⟨e1, e2⟩
      simp [e1, e2] at hall
    · rintro ⟨h1, h2⟩
      refine ⟨?_, h2⟩
      apply List.all_eq_true.2
      intro x hx
      have hna := h1 x hx
      unfold SamePair at hna
      simp only [Bool.not_eq_true']
      by_cases e1 : a.session_id = x.session_id
      · by_cases e2 : a.student_id = x.student_id
        · exact absurd ⟨e1, e2⟩ hna
        · simp [e2]
      · simp [e1]

/-- Claim C3 (amended): validate_qr_code is true exactly when the session
exists, the stored qr_code equals the submitted token, and, whenever an
expiry is stored, now is at or before it.  The status of the session is
never consulted, and a token with no stored expiry validates at any time. -/
theorem c3_validate_amended (db : DB) (now session_id : Nat) (qr : String) :
    validate_qr_code db now session_id qr = true ↔
      ∃ s, getSessionById db session_id = some s ∧ s.qr_code = some qr ∧
        ∀ e, s.qr_expired_at = some e → now ≤ e := by
  unfold validate_qr_code
  cases hs : getSessionById db session_id with
  | none => simp
  | some s =>
    by_cases hq : s.qr_code = some qr
    · cases he : s.qr_expired_at with
      | none => simp [hq, he]
      | some e =>
        by_cases hgt : now > e
        · simp only [hq, if_true, he, hgt]
          simp [hq, he]
          omega
        · simp only [hq, if_true, he, hgt]
          simp [hq, he]
          omega
    · simp [hq]

/-- Claim C3, counterexample to the original statement: after the worker
closes session 1 its status is "Closed", yet the unexpired token still
validates, because validate_qr_code never reads the status and the close
task never clears the token. -/
theorem c3_counterexample :
    (getSessionById (close_teaching_session dbA 10 1).1 1).map (fun s => s.status)
        = some "Closed"
    ∧ validate_qr_code (close_teaching_session dbA 10 1).1 50 1 "attendance://1/tok" = true := by
  decide

/-- Claim C3, witness: the amended characterisation evaluated at a concrete
database. -/
theorem c3_witness : validate_qr_code dbA 50 1 "attendance://1/tok" = true :=
  (c3_validate_amended dbA 50 1 "attendance://1/tok").mpr
    ⟨sessionA, by decide, by decide, by decide⟩

/-- Claim C4 (amended): every accepted QR check-in is stored with status
"present"; the service never computes lateness and never writes "late". -/
theorem c4_checkin_always_present (db : DB) (now session_id student_id : Nat)
    (qr : String) (ip ua : Option String) (a : Attendance)
    (h : (mark_attendance_by_qr db now session_id student_id qr ip ua).1 = some a) :
    a.status = "present" := by
  unfold mark_attendance_by_qr at h
  split at h
  · split at h
    · simp at h
    · simp at h
      subst h
      rfl
  · simp at h

/-- Claim C4, counterexample to the original statement: with plannedStart
540 and a ten minute grace period, a check-in at 552 is past the grace
bound, yet the stored status is "present" rather than "late". -/
theorem c4_counterexample :
    540 + 10 < 552
    ∧ ((mark_attendance_by_qr dbA 552 1 7 "attendance://1/tok" none none).1).map
        (fun a => a.status) = some "present" := by
  decide

/-- Claim C4, witness: the amended theorem applied to the accepted check-in
at time 552. -/
theorem c4_witness :
    ({ id := 1, session_id := 1, student_id := 7, status := "present",
       attendance_time := 552, confidence_score := some 1,
       ip_address := none, user_agent := none } : Attendance).status = "present" :=
  c4_checkin_always_present dbA 552 1 7 "attendance://1/tok" none none _ (by decide)

/-- Claim C5 (amended): schedule_session_closure would register a deferred
closure job, but session creation never calls it, so creating a session
leaves the set of scheduled closure jobs unchanged. -/
theorem c5_create_never_schedules (db : DB) (p : TeachingSessionCreate)
    (session_id run_at : Nat) :
    ((create_session db p).1).scheduledJobs = db.scheduledJobs
    ∧ ((schedule_session_closure db session_id run_at).1).scheduledJobs
        = db.scheduledJobs ++ [{ session_id := session_id, run_at := run_at }] :=
  ⟨rfl, rfl⟩

/-- Claim C5, counterexample to the original statement: creating a session
with a planned end time registers no closure job at all. -/
theorem c5_counterexample :
    ((create_session dbA
        { class_id := 2, session_date := 1, start_time := 540, end_time := 660,
          session_type := "theory" }).1).scheduledJobs = [] := by
  decide

/-- Claim C7 (amended): the worker close task updates only status and
updated_at; the qr_code and qr_expired_at of every session are left exactly
as they were, so a closed session keeps its token. -/
theorem c7_close_preserves_qr (db : DB) (now session_id : Nat) :
    ((close_teaching_session db now session_id).1).sessions.map
        (fun s => (s.qr_code, s.qr_expired_at))
      = db.sessions.map fun s => (s.qr_code, s.qr_expired_at) :=
  map_map_qr db.sessions session_id
    (fun s => { s with status := "Closed", updated_at := some now })
    (fun _ => ⟨rfl, rfl⟩)

/-- Claim C7, counterexample to the original statement: after closing
session 1 the status is "Closed" while the token is still stored, violating
the invariant that currentToken is null whenever the status is Closed. -/
theorem c7_counterexample :
    (getSessionById (close_teaching_session dbA 10 1).1 1).map
        (fun s => (s.status, s.qr_code))
      = some ("Closed", some "attendance://1/tok") := by
  decide

/-- The database component of the close task is the id-keyed status map. -/
theorem close_sessions (db : DB) (now session_id : Nat) :
    ((close_teaching_session db now session_id).1).sessions
      = db.sessions.map fun s =>
          if s.id = session_id then { s with status := "Closed", updated_at := some now }
          else s := rfl

/-- The close task reports success exactly when some row has the id. -/
theorem close_success (db : DB) (now session_id : Nat)
    (h : db.sessions.any (fun s => s.id == session_id) = true) :
    ((close_teaching_session db now session_id).2).success = true := by
  unfold close_teaching_session
  simp [h]

/-- Behaviour of generate_qr_code on an existing session: the token is
stored and returned whatever the status of the session is. -/
theorem generate_spec (db : DB) (now session_id : Nat) (token : String) (m : Nat)
    (s : TeachingSession) (h : getSessionById db session_id = some s) :
    (generate_qr_code db now session_id token m).1 = some (qr_string session_id token)
    ∧ getSessionById (generate_qr_code db now session_id token m).2 session_id
        = some { s with qr_code := some (qr_string session_id token),
                        qr_expired_at := some (now + m * 60) } := by
  have hfind : (db.sessions.map fun x =>
        if x.id = session_id then
          { x with qr_code := some (qr_string session_id token),
                   qr_expired_at := some (now + m * 60) } else x).find?
      (fun x => x.id == session_id)
      = some { s with qr_code := some (qr_string session_id token),
                      qr_expired_at := some (now + m * 60) } := by
    rw [find?_map_upd db.sessions session_id
      (fun x => { x with qr_code := some (qr_string session_id token),
                         qr_expired_at := some (now + m * 60) }) (fun _ => rfl)]
    unfold getSessionById at h
    rw [h]
    rfl
  constructor
  · unfold generate_qr_code update_qr_code
    simp [hfind]
  · unfold generate_qr_code update_qr_code getSessionById
    simp [hfind]

/-- Claim C2 (amended): the worker close task never errors on an existing
session and is idempotent in effect, but it is an unconditional update:
each of two successive calls reports success true, and every row with the
id ends with status "Closed".  There is no conditional no-op and no closed
false result. -/
theorem c2_close_idempotent_amended (db : DB) (session_id t1 t2 : Nat)
    (h : db.sessions.any (fun s => s.id == session_id) = true) :
    ((close_teaching_session db t1 session_id).2).success = true
    ∧ ((close_teaching_session (close_teaching_session db t1 session_id).1 t2
          session_id).2).success = true
    ∧ ∀ s ∈ ((close_teaching_session (close_teaching_session db t1 session_id).1 t2
          session_id).1).sessions, s.id = session_id → s.status = "Closed" := by
  have h2 : ((close_teaching_session db t1 session_id).1).sessions.any
      (fun s => s.id == session_id) = true := by
    rw [close_sessions]
    rw [any_map_upd db.sessions session_id
      (fun s => { s with status := "Closed", updated_at := some t1 }) (fun _ => rfl)]
    exact h
  refine ⟨close_success db t1 session_id h, close_success _ t2 session_id h2, ?_⟩
  intro s hs hid
  rw [close_sessions, close_sessions] at hs
  rcases List.mem_map.1 hs with ⟨a, ha, rfl⟩
  rcases List.mem_map.1 ha with ⟨b, hb, rfl⟩
  by_cases hb1 : b.id = session_id
  · simp [hb1]
  · simp [hb1] at hid

/-- Claim C2, counterexample to the original statement: the second close of
session 1 reports plain success (success true, no error), not a closed
false no-op as the claim requires. -/
theorem c2_counterexample :
    (close_teaching_session (close_teaching_session dbA 10 1).1 20 1).2
      = { success := true, session_id := 1, error := none } := by
  decide

/-- Claim C2, witness: both successive closes of session 1 report
success. -/
theorem c2_witness :
    ((close_teaching_session dbA 10 1).2).success = true
    ∧ ((close_teaching_session (close_teaching_session dbA 10 1).1 20 1).2).success = true :=
  ⟨(c2_close_idempotent_amended dbA 1 10 20 (by decide)).1,
   (c2_close_idempotent_amended dbA 1 10 20 (by decide)).2.1⟩

/-- Claim C6 (amended): the update endpoint applies any provided status
unconditionally; whenever the session exists and the payload carries a
status, the stored row takes exactly that status.  In particular a Closed
session is reopened by a payload with status Open, so Closed is not
terminal. -/
theorem c6_update_sets_any_status (db : DB) (session_id : Nat)
    (u : TeachingSessionUpdate) (s : TeachingSession) (v : String)
    (h1 : getSessionById db session_id = some s) (h2 : u.status = some v) :
    (update_session db session_id u).2 = Except.ok (applyUpdate u s)
    ∧ getSessionById (update_session db session_id u).1 session_id
        = some (applyUpdate u s)
    ∧ (applyUpdate u s).status = v := by
  have hne : isEmptyUpdate u = false := by
    unfold isEmptyUpdate
    simp [h2]
  have hfind : (db.sessions.map fun x =>
        if x.id = session_id then applyUpdate u x else x).find?
      (fun x => x.id == session_id) = some (applyUpdate u s) := by
    rw [find?_map_upd db.sessions session_id (applyUpdate u) (fun _ => rfl)]
    unfold getSessionById at h1
    rw [h1]
    rfl
  refine ⟨?_, ?_, ?_⟩
  · unfold update_session repoUpdateSession
    rw [h1]
    simp [hne, hfind]
  · unfold update_session repoUpdateSession
    rw [h1]
    simp [hne, getSessionById, hfind]
  · unfold applyUpdate
    simp [h2]

/-- Claim C6, counterexample to the original statement: session 1 is closed
by the worker, then a plain update with status Open moves it straight back
to Open, leaving the Closed state. -/
theorem c6_counterexample :
    (getSessionById (close_teaching_session dbA 10 1).1 1).map (fun s => s.status)
        = some "Closed"
    ∧ (getSessionById (update_session (close_teaching_session dbA 10 1).1 1
          { status := some "Open" }).1 1).map (fun s => s.status) = some "Open" := by
  decide

/-- Claim C6, witness: the amended theorem applied to dbA with a payload
that sets status to Close. -/
theorem c6_witness :
    (update_session dbA 1 { status := some "Close" }).2
      = Except.ok (applyUpdate { status := some "Close" } sessionA) :=
  (c6_update_sets_any_status dbA 1 { status := some "Close" } sessionA "Close"
    (by decide) rfl).1

/-- Claim C8 (amended): generate_qr_code performs no status check: on any
existing session, Closed included, it generates the token, stores it with
its expiry, and returns it; it yields none only when the session does not
exist. -/
theorem c8_issue_token_ignores_status (db : DB) (now session_id : Nat)
    (token : String) (m : Nat) (s : TeachingSession)
    (h : getSessionById db session_id = some s) :
    (generate_qr_code db now session_id token m).1 = some (qr_string session_id token)
    ∧ getSessionById (generate_qr_code db now session_id token m).2 session_id
        = some { s with qr_code := some (qr_string session_id token),
                        qr_expired_at := some (now + m * 60) } :=
  generate_spec db now session_id token m s h

/-- Claim C8, counterexample to the original statement: generating a token
for the closed session succeeds and stores the token instead of failing
with an invalid transition error. -/
theorem c8_counterexample :
    (generate_qr_code dbClosed 100 1 "tok" 30).1 = some "attendance://1/tok"
    ∧ (getSessionById (generate_qr_code dbClosed 100 1 "tok" 30).2 1).map
        (fun s => (s.status, s.qr_code))
      = some ("Close", some "attendance://1/tok") := by
  decide

/-- Claim C8, witness: the amended theorem applied to the closed session. -/
theorem c8_witness :
    (generate_qr_code dbClosed 100 1 "tok" 30).1 = some (qr_string 1 "tok") :=
  (c8_issue_token_ignores_status dbClosed 100 1 "tok" 30 sessionClosed (by decide)).1

/-- Claim C10 (confirmed): once generate_qr_code stores a fresh token for a
session, any other token value fails validation immediately, while the new
token validates at every time up to its expiry.  Freshness of the random
token is the hypothesis that the old stored value differs from the new
one. -/
theorem c10_new_token_invalidates_old (db : DB) (now session_id : Nat)
    (token oldQr : String) (m t2 : Nat) (s : TeachingSession)
    (h1 : getSessionById db session_id = some s)
    (h2 : oldQr ≠ qr_string session_id token) :
    validate_qr_code (generate_qr_code db now session_id token m).2 t2 session_id oldQr
        = false
    ∧ (t2 ≤ now + m * 60 →
        validate_qr_code (generate_qr_code db now session_id token m).2 t2 session_id
          (qr_string session_id token) = true) := by
  have hsess := (generate_spec db now session_id token m s h1).2
  constructor
  · have hcond : ¬ (some (qr_string session_id token) = some oldQr) := by
      intro hc
      exact h2 (Option.some.inj hc).symm
    unfold validate_qr_code
    rw [hsess]
    simp [hcond]
  · intro hle
    have hnt : ¬ (t2 > now + m * 60) := by omega
    unfold validate_qr_code
    rw [hsess]
    simp [hnt]

/-- Claim C10, witness: with session 1 holding the old token, issuing the
fresh token new makes the old value fail validation at time 101 while the
fresh token still validates. -/
theorem c10_witness :
    validate_qr_code (generate_qr_code dbA 100 1 "new" 5).2 101 1 "attendance://1/tok"
        = false
    ∧ validate_qr_code (generate_qr_code dbA 100 1 "new" 5).2 101 1 (qr_string 1 "new")
        = true :=
  ⟨(c10_new_token_invalidates_old dbA 100 1 "new" "attendance://1/tok" 5 101 sessionA
      (by decide) (by decide)).1,
   (c10_new_token_invalidates_old dbA 100 1 "new" "attendance://1/tok" 5 101 sessionA
      (by decide) (by decide)).2 (by decide)⟩

/-- When the pair lookup misses, no stored row carries the pair. -/
theorem not_samePair_of_none (db : DB) (session_id student_id : Nat)
    (h : get_by_session_and_student db session_id student_id = none) :
    ∀ b ∈ db.attendances, ¬ (b.session_id = session_id ∧ b.student_id = student_id) := by
  unfold get_by_session_and_student at h
  intro b hb hcon
  have hb2 := List.find?_eq_none.1 h b hb
  simp [hcon.1, hcon.2] at hb2

/-- Appending a row whose pair is fresh preserves pairwise distinctness. -/
theorem pairwise_append_one (l : List Attendance) (x : Attendance)
    (h : l.Pairwise fun a b => ¬ SamePair a b)
    (hx : ∀ b ∈ l, ¬ SamePair b x) :
    (l ++ [x]).Pairwise fun a b => ¬ SamePair a b := by
  rw [List.pairwise_append]
  refine ⟨h, by simp, ?_⟩
  intro a ha b hb
  have hb2 : b = x := by simpa using hb
  subst hb2
  exact hx a ha

/-- Overwriting the status of one row by id leaves the pairs untouched, so
pairwise distinctness of the pairs is preserved. -/
theorem pairwise_map_status (l : List Attendance) (attendance_id : Nat) (st : String)
    (h : l.Pairwise fun a b => ¬ SamePair a b) :
    (l.map fun a => if a.id = attendance_id then { a with status := st } else a).Pairwise
      fun a b => ¬ SamePair a b := by
  rw [List.pairwise_map]
  refine List.Pairwise.imp ?_ h
  intro a b hab hcon
  apply hab
  have pa : ∀ x : Attendance,
      ((if x.id = attendance_id then { x with status := st } else x) : Attendance).session_id
          = x.session_id
      ∧ ((if x.id = attendance_id then { x with status := st } else x) : Attendance).student_id
          = x.student_id := by
    intro x
    by_cases hx : x.id = attendance_id <;> simp [hx]
  have hcon2 : ((if a.id = attendance_id then { a with status := st } else a) : Attendance).session_id
        = ((if b.id = attendance_id then { b with status := st } else b) : Attendance).session_id
      ∧ ((if a.id = attendance_id then { a with status := st } else a) : Attendance).student_id
        = ((if b.id = attendance_id then { b with status := st } else b) : Attendance).student_id :=
    hcon
  show a.session_id = b.session_id ∧ a.student_id = b.student_id
  refine ⟨?_, ?_⟩
  · rw [← (pa a).1, ← (pa b).1]
    exact hcon2.1
  · rw [← (pa a).2, ← (pa b).2]
    exact hcon2.2

/-- Claim C1 (amended): both check-in paths preserve the at-most-one-entry
invariant, and when a row for the pair already exists the QR path rejects
the submission leaving the database unchanged, while the manual path does
not reject but overwrites the existing row in place, adding no new row. -/
theorem c1_at_most_one_entry (db : DB) (now session_id student_id : Nat)
    (qr st : String) (ip ua : Option String)
    (hinv : AtMostOnePerPair db) :
    AtMostOnePerPair (mark_attendance_by_qr db now session_id student_id qr ip ua).2
    ∧ AtMostOnePerPair (mark_attendance_manual db now session_id student_id st).2
    ∧ ((get_by_session_and_student db session_id student_id).isSome = true →
        mark_attendance_by_qr db now session_id student_id qr ip ua = (none, db)
        ∧ ((mark_attendance_manual db now session_id student_id st).2).attendances.length
            = db.attendances.length) := by
  have hP := (noDupPair_iff_pairwise db.attendances).1 hinv
  refine ⟨?_, ?_, ?_⟩
  · unfold mark_attendance_by_qr
    by_cases hv : validate_qr_code db now session_id qr = true
    · rw [if_pos hv]
      cases hg : get_by_session_and_student db session_id student_id with
      | some x => exact hinv
      | none =>
        exact (noDupPair_iff_pairwise _).2
          (pairwise_append_one db.attendances _ hP
            (fun b hb hsp => not_samePair_of_none db session_id student_id hg b hb hsp))
    · rw [if_neg hv]
      exact hinv
  · unfold mark_attendance_manual
    cases hg : get_by_session_and_student db session_id student_id with
    | some existing =>
      exact (noDupPair_iff_pairwise _).2 (pairwise_map_status db.attendances existing.id st hP)
    | none =>
      exact (noDupPair_iff_pairwise _).2
        (pairwise_append_one db.attendances _ hP
          (fun b hb hsp => not_samePair_of_none db session_id student_id hg b hb hsp))
  · intro hsome
    cases hg : get_by_session_and_student db session_id student_id with
    | none =>
      rw [hg] at hsome
      simp at hsome
    | some existing =>
      constructor
      · unfold mark_attendance_by_qr
        by_cases hv : validate_qr_code db now session_id qr = true
        · rw [if_pos hv, hg]
        · rw [if_neg hv]
      · unfold mark_attendance_manual
        rw [hg]
        unfold updateAttendanceStatus
        simp

/-- Claim C1, counterexample to the original statement: student 7 already
has a row for session 1, yet a second manual submission is not rejected: it
returns the row with its status silently overwritten to absent. -/
theorem c1_counterexample :
    (mark_attendance_manual dbB 552 1 7 "absent").1 = some { attA with status := "absent" }
    ∧ (mark_attendance_manual dbB 552 1 7 "absent").2.attendances
        = [{ attA with status := "absent" }] := by
  decide

/-- Claim C1, witness: the duplicate QR submission of student 7 is rejected
and the database is unchanged. -/
theorem c1_witness :
    mark_attendance_by_qr dbB 552 1 7 "attendance://1/tok" none none = (none, dbB) :=
  ((c1_at_most_one_entry dbB 552 1 7 "attendance://1/tok" "late" none none
      (by decide)).2.2 (by decide)).1

/-- Claim C9 (amended): every failure of the QR check-in, be it an invalid
or expired token, a missing session, or an already marked pair, reaches the
caller as the same generic HTTP 400 with the single message, so the caller
cannot distinguish the causes. -/
theorem c9_failures_collapse (db : DB) (now session_id student_id : Nat) (qr : String)
    (h : (mark_attendance_by_qr db now session_id student_id qr none none).1 = none) :
    (mark_attendance_by_qr_endpoint db now session_id student_id qr).1
      = Except.error (400, "Failed to mark attendance with QR code") := by
  simp only [mark_attendance_by_qr_endpoint]
  rw [h]

/-- Claim C9, counterexample to the original statement: three databases in
which the three distinct failure causes hold (wrong token, duplicate entry
with a valid token, missing session) all produce the identical generic
error from the endpoint. -/
theorem c9_counterexample :
    validate_qr_code dbA 50 1 "wrong" = false
    ∧ (get_by_session_and_student dbB 1 7).isSome = true
    ∧ validate_qr_code dbB 545 1 "attendance://1/tok" = true
    ∧ getSessionById { dbA with sessions := [] } 1 = none
    ∧ (mark_attendance_by_qr_endpoint dbA 50 1 7 "wrong").1
        = Except.error (400, "Failed to mark attendance with QR code")
    ∧ (mark_attendance_by_qr_endpoint dbB 545 1 7 "attendance://1/tok").1
        = Except.error (400, "Failed to mark attendance with QR code")
    ∧ (mark_attendance_by_qr_endpoint { dbA with sessions := [] } 545 1 7
          "attendance://1/tok").1
        = Except.error (400, "Failed to mark attendance with QR code") := by
  refine ⟨?_, ?_, ?_, ?_, ?_, ?_, ?_⟩ <;> rfl

/-- Claim C9, witness: the collapse theorem applied to the wrong-token
failure. -/
theorem c9_witness :
    (mark_attendance_by_qr_endpoint dbA 50 1 7 "wrong").1
      = Except.error (400, "Failed to mark attendance with QR code") :=
  c9_failures_collapse dbA 50 1 7 "wrong" (by decide)
